import Mathlib

/-!
Verification of the rkyv adapter layer of rosu-v2 (src/model/rkyv_impls.rs).

The adapters are embedded shallowly: machine integers are modelled as
`Int`/`Nat` with explicit wrapping (`% 2 ^ 32`, `% 2 ^ 128`) where overflow
matters, fallible operations return `Except`, and a decode-time `.unwrap()`
on an error value is modelled by the `panicked` outcome.
-/

set_option maxRecDepth 8000

/-! ### Machine-integer semantics (i32 and i128) -/

/-- The 32-bit two's-complement bit pattern of an integer, as a natural
number below `2 ^ 32`. -/
def bits32 (x : Int) : Nat := (x % (2 ^ 32 : Int)).toNat

/-- The signed value of a 32-bit pattern (two's complement). -/
def ofBits32 (n : Nat) : Int := if n < 2 ^ 31 then (n : Int) else (n : Int) - 2 ^ 32

/-- Wrapping of an integer into the signed 128-bit range, as an i128 store
performs. -/
def wrap128 (x : Int) : Int := (x + 2 ^ 127) % 2 ^ 128 - 2 ^ 127

/-- Bitwise or of a multiple of `2 ^ i` with a number below `2 ^ i` is
their sum: the two operands occupy disjoint bit ranges. -/
theorem lor_eq_add_of_dvd {i a b : Nat} (ha : 2 ^ i ∣ a) (hb : b < 2 ^ i) :
    a ||| b = a + b := by
  obtain ⟨c, rfl⟩ := ha
  apply Nat.eq_of_testBit_eq
  intro j
  have hmul : Nat.testBit (2 ^ i * c) j =
      if j < i then false else Nat.testBit c (j - i) := by
    have h := Nat.testBit_mul_pow_two_add c (Nat.two_pow_pos i) j
    simpa using h
  rw [Nat.testBit_or, Nat.testBit_mul_pow_two_add c hb j, hmul]
  by_cases hj : j < i
  · simp [hj]
  · have hbj : Nat.testBit b j = false :=
      Nat.testBit_lt_two_pow
        (lt_of_lt_of_le hb (Nat.pow_le_pow_right (by norm_num) (Nat.le_of_not_lt hj)))
    simp [hj, hbj]

/-! ### The calendar-date model (time crate `Date`, used by `DateWrapper`) -/

/-- Leap-year test of the proleptic Gregorian calendar, as used by the
time crate for `days_in_year`. -/
def isLeapYear (y : Int) : Bool := y % 4 == 0 && (y % 100 != 0 || y % 400 == 0)

/-- Number of days in a proleptic Gregorian year. -/
def daysInYear (y : Int) : Nat := if isLeapYear y then 366 else 365

/-- A calendar date, carried as the pair the adapter reads and writes:
`year` (the time crate's `Date::year`, an i32 kept in `-9999..=9999` by
construction) and `ordinal` (`Date::ordinal`, a 1-based day of year). -/
structure Date where
  year : Int
  ordinal : Nat
deriving DecidableEq

/-- Error type standing for the time crate's `ComponentRange` error. -/
inductive TimeError where
  | componentRange
deriving DecidableEq

/-- Model of the time crate's `Date::from_ordinal_date`: succeeds exactly
when the year is in the supported range and the ordinal is in
`1..=days_in_year(year)`, and fails with a `ComponentRange` error
otherwise. -/
def Date.fromOrdinalDate (y : Int) (o : Nat) : Except TimeError Date :=
  if -9999 ≤ y ∧ y ≤ 9999 ∧ 1 ≤ o ∧ o ≤ daysInYear y then
    Except.ok ⟨y, o⟩
  else
    Except.error TimeError.componentRange

/-- Outcome of a decode step whose source unwraps a `Result`: either the
value, or the process abort that `.unwrap()` performs on an error. -/
inductive DeserializeOutcome (α : Type) where
  | ok (a : α)
  | panicked
deriving DecidableEq

/-! ### DateWrapper (src/model/rkyv_impls.rs, lines 275-316) -/

/-- The i32 value written by `DateWrapper::resolve_with`:
`(year << 9) | ordinal as i32`, computed on 32-bit patterns.  The shift
keeps the low 32 bits of the pattern, and the or combines the shifted
year pattern with the (u16-sized) ordinal. -/
def dateResolveValue (field : Date) : Int :=
  ofBits32 (((bits32 field.year <<< 9) % 2 ^ 32) ||| field.ordinal)

/-- Year extraction of `DateWrapper::deserialize_with`:
`field.value >> 9`.  On i32 this is an arithmetic (sign-preserving) right
shift, which on the signed value is floor division by `2 ^ 9`; Lean's
`Int` division by a positive divisor is exactly floor division. -/
def dateDeserializeYear (packed : Int) : Int := packed / 2 ^ 9

/-- Ordinal extraction of `DateWrapper::deserialize_with`:
`(field.value & 0x1FF) as u16`, i.e. the low nine bits of the stored
pattern. -/
def dateDeserializeOrdinal (packed : Int) : Nat := bits32 packed &&& 0x1FF

/-- `DateWrapper::deserialize_with`: extract year and ordinal and call
`Date::from_ordinal_date(year, ordinal).unwrap()`; the unwrap turns a
constructor error into a panic. -/
def dateDeserializeWith (packed : Int) : DeserializeOutcome Date :=
  match Date.fromOrdinalDate (dateDeserializeYear packed) (dateDeserializeOrdinal packed) with
  | Except.ok d => DeserializeOutcome.ok d
  | Except.error _ => DeserializeOutcome.panicked

/-- For a year within the i32-safe range and an ordinal below `2 ^ 9`,
the packed value equals the exact integer `512 * year + ordinal`: the
shift does not overflow and the or does not collide. -/
theorem dateResolveValue_eq (d : Date) (hy1 : -9999 ≤ d.year) (hy2 : d.year ≤ 9999)
    (ho : d.ordinal < 512) :
    dateResolveValue d = 512 * d.year + (d.ordinal : Int) := by
  obtain ⟨y, o⟩ := d
  simp only at hy1 hy2 ho
  unfold dateResolveValue bits32
  simp only
  rw [Nat.shiftLeft_eq]
  set n : Nat := ((y % (2 ^ 32 : Int))).toNat with hn
  have h1 : (n : Int) = y % 2 ^ 32 := by omega
  set m : Nat := (n * 2 ^ 9) % 2 ^ 32 with hm
  have hdvd : (2 ^ 9 : Nat) ∣ m := by omega
  rw [lor_eq_add_of_dvd hdvd (by omega)]
  unfold ofBits32
  split
  · omega
  · omega

/-- Claim C1: for every calendar date with ordinal in [1, 366] and year in
the representable range -5000..5000, packing as `(year << 9) | ordinal`
into an i32 and extracting `ordinal = packed & 0x1FF` and
`year = packed >> 9` (arithmetic right shift) recovers exactly the
original (year, ordinal) pair. -/
theorem c1_date_pack_unpack_roundtrip (d : Date)
    (hy1 : -5000 ≤ d.year) (hy2 : d.year ≤ 5000)
    (ho1 : 1 ≤ d.ordinal) (ho2 : d.ordinal ≤ 366) :
    dateDeserializeYear (dateResolveValue d) = d.year ∧
    dateDeserializeOrdinal (dateResolveValue d) = d.ordinal := by
  have he : dateResolveValue d = 512 * d.year + (d.ordinal : Int) :=
    dateResolveValue_eq d (by omega) (by omega) (by omega)
  constructor
  · rw [he]
    unfold dateDeserializeYear
    omega
  · rw [he]
    unfold dateDeserializeOrdinal bits32
    rw [show (0x1FF : Nat) = 2 ^ 9 - 1 by norm_num, Nat.and_pow_two_sub_one_eq_mod]
    omega

theorem c1_date_pack_unpack_roundtrip_witness :
    ((-5000 : Int) ≤ (Date.mk (-1) 366).year ∧ (Date.mk (-1) 366).year ≤ 5000 ∧
      1 ≤ (Date.mk (-1) 366).ordinal ∧ (Date.mk (-1) 366).ordinal ≤ 366) ∧
    (dateDeserializeYear (dateResolveValue (Date.mk (-1) 366)) = -1 ∧
      dateDeserializeOrdinal (dateResolveValue (Date.mk (-1) 366)) = 366) :=
  ⟨⟨by decide, by decide, by decide, by decide⟩,
    c1_date_pack_unpack_roundtrip (Date.mk (-1) 366)
      (by decide) (by decide) (by decide) (by decide)⟩

/-- Claim C10: over the date type's supported year range -9999..=9999 the
packing computation `(year << 9) | ordinal` neither overflows i32 nor
lets the ordinal collide with the shifted year, so it equals the exact
integer `512 * year + ordinal` and is injective on valid dates. -/
theorem c10_date_pack_injective (d1 d2 : Date)
    (h1a : -9999 ≤ d1.year) (h1b : d1.year ≤ 9999)
    (h1c : 1 ≤ d1.ordinal) (h1d : d1.ordinal ≤ 366)
    (h2a : -9999 ≤ d2.year) (h2b : d2.year ≤ 9999)
    (h2c : 1 ≤ d2.ordinal) (h2d : d2.ordinal ≤ 366) :
    dateResolveValue d1 = 512 * d1.year + (d1.ordinal : Int) ∧
    (dateResolveValue d1 = dateResolveValue d2 ↔ d1 = d2) := by
  have e1 : dateResolveValue d1 = 512 * d1.year + (d1.ordinal : Int) :=
    dateResolveValue_eq d1 (by omega) (by omega) (by omega)
  have e2 : dateResolveValue d2 = 512 * d2.year + (d2.ordinal : Int) :=
    dateResolveValue_eq d2 (by omega) (by omega) (by omega)
  refine ⟨e1, ?_⟩
  obtain ⟨y1, o1⟩ := d1
  obtain ⟨y2, o2⟩ := d2
  simp only at h1a h1b h1c h1d h2a h2b h2c h2d e1 e2
  rw [e1, e2, Date.mk.injEq]
  omega

theorem c10_date_pack_injective_witness :
    ((-9999 : Int) ≤ (Date.mk 2024 60).year ∧ (Date.mk 2024 60).year ≤ 9999 ∧
      1 ≤ (Date.mk 2024 60).ordinal ∧ (Date.mk 2024 60).ordinal ≤ 366 ∧
      (-9999 : Int) ≤ (Date.mk 2025 60).year ∧ (Date.mk 2025 60).year ≤ 9999 ∧
      1 ≤ (Date.mk 2025 60).ordinal ∧ (Date.mk 2025 60).ordinal ≤ 366) ∧
    (dateResolveValue (Date.mk 2024 60) = 512 * 2024 + 60 ∧
      (dateResolveValue (Date.mk 2024 60) = dateResolveValue (Date.mk 2025 60) ↔
        Date.mk 2024 60 = Date.mk 2025 60)) :=
  ⟨⟨by decide, by decide, by decide, by decide, by decide, by decide, by decide, by decide⟩,
    c10_date_pack_injective (Date.mk 2024 60) (Date.mk 2025 60)
      (by decide) (by decide) (by decide) (by decide)
      (by decide) (by decide) (by decide) (by decide)⟩

/-- Claim C5 (code side): at the packed value 0 the extracted ordinal is
0, `Date::from_ordinal_date` reports a recoverable `ComponentRange`
error, and the adapter's `.unwrap()` turns it into a panic instead of a
recoverable decode error. -/
theorem c5_date_deserialize_unwrap_panics :
    Date.fromOrdinalDate (dateDeserializeYear 0) (dateDeserializeOrdinal 0) =
      Except.error TimeError.componentRange ∧
    dateDeserializeWith 0 = DeserializeOutcome.panicked := by
  constructor
  · rfl
  · rfl

/-! ### DateTimeWrapper (src/model/rkyv_impls.rs, lines 242-273) -/

/-- Number of leap years among the proleptic Gregorian years `1..=y`
(counted backwards for negative arguments via floor division). -/
def leapCount (y : Int) : Int := y / 4 - y / 100 + y / 400

/-- Days from 0001-01-01 to the first day of year `y` in the proleptic
Gregorian calendar. -/
def daysToYear (y : Int) : Int := 365 * (y - 1) + leapCount (y - 1)

/-- Modelled from the spec: the lower end of the representable range of
the target instant type (`OffsetDateTime`, outside src/), as unix
nanoseconds of -9999-01-01T00:00:00Z. -/
def minDateTimeNanos : Int := (daysToYear (-9999) - daysToYear 1970) * 86400 * 1000000000

/-- Modelled from the spec: the upper end of the representable range of
the target instant type, as unix nanoseconds of
9999-12-31T23:59:59.999999999Z. -/
def maxDateTimeNanos : Int := (daysToYear 10000 - daysToYear 1970) * 86400 * 1000000000 - 1

/-- An absolute instant, carried as the one quantity the adapter reads
and writes: its signed count of nanoseconds since the unix epoch. -/
structure OffsetDateTime where
  nanos : Int
deriving DecidableEq

/-- The source instant's `unix_timestamp_nanos()` accessor. -/
def OffsetDateTime.unix_timestamp_nanos (t : OffsetDateTime) : Int := t.nanos

/-- Model of the time crate's `OffsetDateTime::from_unix_timestamp_nanos`:
succeeds exactly on counts within the representable range and fails with
a `ComponentRange` error otherwise. -/
def fromUnixTimestampNanos (n : Int) : Except TimeError OffsetDateTime :=
  if minDateTimeNanos ≤ n ∧ n ≤ maxDateTimeNanos then
    Except.ok ⟨n⟩
  else
    Except.error TimeError.componentRange

/-- `DateTimeWrapper::serialize_with`: performs no work and returns the
unit resolver, never failing. -/
def dateTimeSerializeWith (E : Type) (_ : OffsetDateTime) : Except E Unit := Except.ok ()

/-- `DateTimeWrapper::resolve_with`: writes
`field.unix_timestamp_nanos()` as an i128. -/
def dateTimeResolveValue (field : OffsetDateTime) : Int :=
  wrap128 field.unix_timestamp_nanos

/-- `DateTimeWrapper::deserialize_with`:
`OffsetDateTime::from_unix_timestamp_nanos(*field).unwrap()`; the unwrap
turns a range error into a panic. -/
def dateTimeDeserializeWith (field : Int) : DeserializeOutcome OffsetDateTime :=
  match fromUnixTimestampNanos field with
  | Except.ok t => DeserializeOutcome.ok t
  | Except.error _ => DeserializeOutcome.panicked

/-- Claim C7: serialize performs no work and returns the unit resolver
without failing, resolve writes exactly the signed 128-bit nanosecond
count of the source instant (no wrapping occurs in range), and
deserializing that in-range count reconstructs the instant with the same
nanosecond value. -/
theorem c7_datetime_resolve_roundtrip (t : OffsetDateTime)
    (hmin : minDateTimeNanos ≤ t.nanos) (hmax : t.nanos ≤ maxDateTimeNanos) :
    dateTimeSerializeWith Unit t = Except.ok () ∧
    dateTimeResolveValue t = t.unix_timestamp_nanos ∧
    dateTimeDeserializeWith (dateTimeResolveValue t) = DeserializeOutcome.ok t := by
  obtain ⟨n⟩ := t
  simp only at hmin hmax
  have hw : dateTimeResolveValue ⟨n⟩ = n := by
    unfold dateTimeResolveValue wrap128 OffsetDateTime.unix_timestamp_nanos
    simp only [minDateTimeNanos, maxDateTimeNanos, daysToYear, leapCount] at hmin hmax
    dsimp only
    omega
  refine ⟨rfl, hw, ?_⟩
  rw [hw]
  unfold dateTimeDeserializeWith fromUnixTimestampNanos
  rw [if_pos ⟨hmin, hmax⟩]

theorem c7_datetime_resolve_roundtrip_witness :
    (minDateTimeNanos ≤ (OffsetDateTime.mk 0).nanos ∧
      (OffsetDateTime.mk 0).nanos ≤ maxDateTimeNanos) ∧
    (dateTimeSerializeWith Unit (OffsetDateTime.mk 0) = Except.ok () ∧
      dateTimeResolveValue (OffsetDateTime.mk 0) =
        (OffsetDateTime.mk 0).unix_timestamp_nanos ∧
      dateTimeDeserializeWith (dateTimeResolveValue (OffsetDateTime.mk 0)) =
        DeserializeOutcome.ok (OffsetDateTime.mk 0)) :=
  ⟨⟨by decide, by decide⟩,
    c7_datetime_resolve_roundtrip (OffsetDateTime.mk 0) (by decide) (by decide)⟩

/-- Claim C4 (code side): one nanosecond past the upper end of the
representable range, `from_unix_timestamp_nanos` reports a recoverable
`ComponentRange` error, and the adapter's `.unwrap()` turns it into a
panic instead of a recoverable `OutOfRange` decode error. -/
theorem c4_datetime_deserialize_unwrap_panics :
    fromUnixTimestampNanos (maxDateTimeNanos + 1) =
      Except.error TimeError.componentRange ∧
    dateTimeDeserializeWith (maxDateTimeNanos + 1) = DeserializeOutcome.panicked := by
  have h : ¬ (minDateTimeNanos ≤ maxDateTimeNanos + 1 ∧
      maxDateTimeNanos + 1 ≤ maxDateTimeNanos) := by
    intro hc
    omega
  constructor
  · unfold fromUnixTimestampNanos
    rw [if_neg h]
  · unfold dateTimeDeserializeWith fromUnixTimestampNanos
    rw [if_neg h]

/-! ### The generic Map adapter (src/model/rkyv_impls.rs, lines 18-175)

An element adapter `A` for source type `O` is modelled by its three
operations: the fallible `serialize_with` producing a resolver, the
infallible `resolve_with` combining the source value and its resolver
into the archived element written into the buffer, and the fallible
`deserialize_with` reading an archived element back.  The buffer
positions themselves carry no information in the model, so an archived
element stands for the bytes its resolve call wrote. -/

structure AdapterModel (O R A E : Type) where
  serialize_with : O → Except E R
  resolve_with : O → R → A
  deserialize_with : A → Except E O

variable {O R A E : Type}

/-- `Map::<A>::serialize_with` for `Vec<O>` composed with the element
resolves performed by `ArchivedVec::serialize_from_iter`: each element is
serialized in iteration order (the first failure aborting, as in rkyv's
fallible serializer), and its header is resolved from its own resolver,
yielding the contiguous archived elements in source order. -/
def vecSerializeWith (ad : AdapterModel O R A E) : List O → Except E (List A)
  | [] => Except.ok []
  | x :: xs =>
    match ad.serialize_with x with
    | Except.error e => Except.error e
    | Except.ok r =>
      match vecSerializeWith ad xs with
      | Except.error e => Except.error e
      | Except.ok rest => Except.ok (ad.resolve_with x r :: rest)

/-- `Map::<A>::deserialize_with` for `Vec<O>`:
`field.iter().map(deserialize_with).collect()`, deserializing the
archived elements in order with the first failure aborting. -/
def vecDeserializeWith (ad : AdapterModel O R A E) : List A → Except E (List O)
  | [] => Except.ok []
  | a :: rest =>
    match ad.deserialize_with a with
    | Except.error e => Except.error e
    | Except.ok x =>
      match vecDeserializeWith ad rest with
      | Except.error e => Except.error e
      | Except.ok xs => Except.ok (x :: xs)

/-- Claim C2: serializing a source vector whose element adapter
round-trips and then deserializing the archived sequence yields the same
vector, with the same length and elements in the original order; the
empty vector round-trips to the empty vector. -/
theorem c2_vec_roundtrip (ad : AdapterModel O R A E)
    (hrt : ∀ x r, ad.serialize_with x = Except.ok r →
      ad.deserialize_with (ad.resolve_with x r) = Except.ok x)
    (v : List O) (l : List A) (hs : vecSerializeWith ad v = Except.ok l) :
    vecDeserializeWith ad l = Except.ok v ∧ l.length = v.length ∧
      vecSerializeWith ad ([] : List O) = Except.ok ([] : List A) ∧
      vecDeserializeWith ad ([] : List A) = Except.ok ([] : List O) := by
  refine ⟨?_, ?_, rfl, rfl⟩ <;>
  · induction v generalizing l with
    | nil =>
      unfold vecSerializeWith at hs
      injection hs with hl
      subst hl
      rfl
    | cons x xs ih =>
      unfold vecSerializeWith at hs
      cases hx : ad.serialize_with x with
      | error e => rw [hx] at hs; cases hs
      | ok r =>
        rw [hx] at hs
        cases hxs : vecSerializeWith ad xs with
        | error e => rw [hxs] at hs; cases hs
        | ok rest =>
          rw [hxs] at hs
          injection hs with hl
          subst hl
          have hih := ih rest hxs
          first
          | ·  unfold vecDeserializeWith
               rw [hrt x r hx, hih]
          | ·  simpa using hih

/-- `Map::<A>::serialize_with` for `Option<O>`:
`field.as_ref().map(serialize_with).transpose()` — an absent source
yields the `None` resolver, a present one the element resolver, with the
element's failure propagated. -/
def optSerializeWith (ad : AdapterModel O R A E) : Option O → Except E (Option R)
  | none => Except.ok none
  | some x =>
    match ad.serialize_with x with
    | Except.error e => Except.error e
    | Except.ok r => Except.ok (some r)

/-- Outcome of `Map::<A>::resolve_with` for `Option<O>`: either the
archived tagged union that was written (tag 0 for absent, tag 1 plus the
resolved payload for present), or the two failure modes the layout code
distinguishes — a checked assertion (which this code does not contain)
and the undefined behavior of `std::hint::unreachable_unchecked`. -/
inductive ResolveOut (A : Type) where
  | written (value : Option A)
  | checkedPanic
  | undefBehavior
deriving DecidableEq

/-- `Map::<A>::resolve_with` for `Option<O>`: a `None` resolver writes
only the `None` tag; a `Some` resolver writes the `Some` tag and resolves
the payload from the source value — and when the source value is absent
the code executes `unreachable_unchecked()`, i.e. undefined behavior. -/
def optResolveWith (resolveElem : O → R → A) (field : Option O) (resolver : Option R) :
    ResolveOut A :=
  match resolver with
  | none => ResolveOut.written none
  | some r =>
    match field with
    | some value => ResolveOut.written (some (resolveElem value r))
    | none => ResolveOut.undefBehavior

/-- `Map::<A>::deserialize_with` for `Option<O>`: `Some` recurses into
the element adapter (propagating its failure), `None` yields `None`. -/
def optDeserializeWith (ad : AdapterModel O R A E) : Option A → Except E (Option O)
  | some a =>
    match ad.deserialize_with a with
    | Except.error e => Except.error e
    | Except.ok x => Except.ok (some x)
  | none => Except.ok none

/-- Claim C3: through the Optional adapter an absent value round-trips to
absent, and a present value `Some(x)` serializes to the element resolver,
resolves to the tagged `Some` payload, and deserializes back to `Some(x)`
whenever the element adapter reproduces `x`. -/
theorem c3_option_roundtrip (ad : AdapterModel O R A E)
    (hrt : ∀ x r, ad.serialize_with x = Except.ok r →
      ad.deserialize_with (ad.resolve_with x r) = Except.ok x) :
    (optSerializeWith ad (none : Option O) = Except.ok none ∧
      optResolveWith ad.resolve_with (none : Option O) none = ResolveOut.written none ∧
      optDeserializeWith ad (none : Option A) = Except.ok none) ∧
    (∀ x r, ad.serialize_with x = Except.ok r →
      optSerializeWith ad (some x) = Except.ok (some r) ∧
      optResolveWith ad.resolve_with (some x) (some r) =
        ResolveOut.written (some (ad.resolve_with x r)) ∧
      optDeserializeWith ad (some (ad.resolve_with x r)) = Except.ok (some x)) := by
  refine ⟨⟨rfl, rfl, rfl⟩, fun x r hx => ⟨?_, rfl, ?_⟩⟩
  · simp only [optSerializeWith]
    rw [hx]
  · simp only [optDeserializeWith]
    rw [hrt x r hx]

/-- Claim C9 counterexample: when the `Some` resolver is resolved against
an absent source, the implementation does not fail loudly with a checked
panic or abort — it executes `unreachable_unchecked`, which is undefined
behavior. -/
theorem c9_resolve_mismatch_counterexample :
    optResolveWith (fun (_ : Unit) (r : Unit) => r) (none : Option Unit) (some ()) =
      ResolveOut.undefBehavior ∧
    optResolveWith (fun (_ : Unit) (r : Unit) => r) (none : Option Unit) (some ()) ≠
      ResolveOut.checkedPanic := by
  exact ⟨rfl, by decide⟩

/-- Claim C9 as amended: the mismatch branch is an unchecked precondition
(undefined behavior via `unreachable_unchecked`), not a checked panic;
under the pairing precondition that a `Some` resolver is only resolved
against a present source, resolve never reaches either failure mode and
writes the tagged layout. -/
theorem c9_resolve_precondition_unreachable (resolveElem : O → R → A)
    (field : Option O) (resolver : Option R)
    (h : resolver.isSome = true → field.isSome = true) :
    optResolveWith resolveElem field resolver ≠ ResolveOut.undefBehavior ∧
    optResolveWith resolveElem field resolver ≠ ResolveOut.checkedPanic := by
  cases resolver with
  | none => exact ⟨by simp [optResolveWith], by simp [optResolveWith]⟩
  | some r =>
    cases field with
    | some v => exact ⟨by simp [optResolveWith], by simp [optResolveWith]⟩
    | none => simp at h

theorem c9_resolve_precondition_unreachable_witness :
    optResolveWith (fun (_ : Unit) (r : Unit) => r) (some ()) (some ()) ≠
      ResolveOut.undefBehavior ∧
    optResolveWith (fun (_ : Unit) (r : Unit) => r) (some ()) (some ()) ≠
      ResolveOut.checkedPanic :=
  c9_resolve_precondition_unreachable (fun (_ : Unit) (r : Unit) => r)
    (some ()) (some ()) (fun _ => rfl)

/-- A concrete adaptable element type for witnesses: the identity adapter
on naturals, whose archived form is the value itself. -/
def natIdAdapter : AdapterModel Nat Nat Nat Unit where
  serialize_with := fun n => Except.ok n
  resolve_with := fun _ r => r
  deserialize_with := fun a => Except.ok a

theorem c2_vec_roundtrip_witness :
    vecDeserializeWith natIdAdapter [1, 2, 3] = Except.ok [1, 2, 3] ∧
    ([1, 2, 3] : List Nat).length = ([1, 2, 3] : List Nat).length ∧
    vecSerializeWith natIdAdapter ([] : List Nat) = Except.ok ([] : List Nat) ∧
    vecDeserializeWith natIdAdapter ([] : List Nat) = Except.ok ([] : List Nat) :=
  c2_vec_roundtrip natIdAdapter
    (fun x r h => by
      simp only [natIdAdapter] at h ⊢
      injection h with h
      rw [h])
    [1, 2, 3] [1, 2, 3] rfl

theorem c3_option_roundtrip_witness :
    optDeserializeWith natIdAdapter (some (natIdAdapter.resolve_with 5 5)) =
      Except.ok (some 5) ∧
    optDeserializeWith natIdAdapter (none : Option Nat) = Except.ok none :=
  ⟨((c3_option_roundtrip natIdAdapter
      (fun x r h => by
        simp only [natIdAdapter] at h ⊢
        injection h with h
        rw [h])).2 5 5 rfl).2.2,
    (c3_option_roundtrip natIdAdapter
      (fun x r h => by
        simp only [natIdAdapter] at h ⊢
        injection h with h
        rw [h])).1.2.2⟩

/-! ### Text-identifier adapters (src/model/rkyv_impls.rs, lines 177-237) -/

/-- Modelled from the spec: the `CountryCode` domain kind (defined
outside src/), whose plain string constructor `from_str` wraps the text
verbatim with no normalization or validation, and whose `as_str` returns
that text. -/
structure CountryCode where
  text : String
deriving DecidableEq

def CountryCode.from_str (s : String) : CountryCode := ⟨s⟩

def CountryCode.as_str (c : CountryCode) : String := c.text

/-- Modelled from the spec: the `Username` domain kind (defined outside
src/), a verbatim string wrapper like `CountryCode`. -/
structure Username where
  text : String
deriving DecidableEq

def Username.from_str (s : String) : Username := ⟨s⟩

def Username.as_str (u : Username) : String := u.text

/-- `CountryCodeWrapper::serialize_with`:
`ArchivedString::serialize_from_str(field.as_str(), s)` copies the
source's UTF-8 bytes verbatim, so the archived string is exactly
`field.as_str()`. -/
def countryCodeSerializeWith (E : Type) (field : CountryCode) : Except E String :=
  Except.ok (CountryCode.as_str field)

/-- `CountryCodeWrapper::deserialize_with`:
`Ok(CountryCode::from_str(field.as_str()))` — the plain constructor on
the archived text, never an error. -/
def countryCodeDeserializeWith (E : Type) (field : String) : Except E CountryCode :=
  Except.ok (CountryCode.from_str field)

/-- `UsernameWrapper::serialize_with`, verbatim like the country code. -/
def usernameSerializeWith (E : Type) (field : Username) : Except E String :=
  Except.ok (Username.as_str field)

/-- `UsernameWrapper::deserialize_with`, the plain constructor on the
archived text, never an error. -/
def usernameDeserializeWith (E : Type) (field : String) : Except E Username :=
  Except.ok (Username.from_str field)

/-- Claim C8: for both text-identifier kinds, serialize copies the
source's text verbatim into the archive, and deserialize applies the
kind's plain string constructor to the archived text without
normalization, validation or any error, so the archived and
reconstructed text equals the source text exactly. -/
theorem c8_text_identifier_roundtrip (c : CountryCode) (u : Username) :
    countryCodeSerializeWith Unit c = Except.ok (CountryCode.as_str c) ∧
    countryCodeDeserializeWith Unit (CountryCode.as_str c) = Except.ok c ∧
    CountryCode.as_str (CountryCode.from_str (CountryCode.as_str c)) =
      CountryCode.as_str c ∧
    usernameSerializeWith Unit u = Except.ok (Username.as_str u) ∧
    usernameDeserializeWith Unit (Username.as_str u) = Except.ok u ∧
    Username.as_str (Username.from_str (Username.as_str u)) = Username.as_str u := by
  obtain ⟨cs⟩ := c
  obtain ⟨us⟩ := u
  exact ⟨rfl, rfl, rfl, rfl, rfl, rfl⟩
